import Mathlib

/-!
Verification of the dvstore request-handling and response-contract layer.

The Go sources are shallowly embedded: errors are an inductive `GoError`
mirroring the error values the repository builds (an `apiError` with status,
message and cause; wrapped errors from `errors.Wrap`; plain errors from
`errors.New`; and the nil error), the `http.ResponseWriter` is a small state
machine with the documented net/http semantics (the first `WriteHeader` wins,
the header map is snapshotted at that point), and external collaborators
(the mongo collection, `json.Marshal`/`json.Unmarshal`, `url.Parse`) are
parameters of the functions that call them.
-/

deriving instance DecidableEq for Except

namespace DVStore

/-- Go error values as built by this repository: `apiError` (router.go),
`errors.Wrap`, `errors.New`, and the nil error. The `apiErr` cause field is
`nilError` when the source leaves `Err` unset. -/
inductive GoError where
  | apiErr (statusCode : Nat) (message : String) (cause : GoError)
  | wrapped (msg : String) (inner : GoError)
  | simple (msg : String)
  | nilError
deriving DecidableEq

/-- The `apiError` struct of router.go: http status code, safe message, and
the original error (internal only). -/
structure apiError where
  StatusCode : Nat
  Message : String
  Err : GoError
deriving DecidableEq

/-- `errors.As(err, &aerr)` for target type `apiError`: walks the unwrap
chain produced by `errors.Wrap`; `apiError` itself has no `Unwrap` method,
so its `Err` field is not part of the chain. -/
def asApiError : GoError → Option apiError
  | .apiErr c m e => some ⟨c, m, e⟩
  | .wrapped _ inner => asApiError inner
  | .simple _ => none
  | .nilError => none

/-- The request context: `ctxErr` models `ctx.Err()`, `nilError` when the
context is not cancelled. -/
structure Ctx where
  ctxErr : GoError
deriving DecidableEq

/-- The error-classification half of `writeError` (router.go lines 148-165):
a cancelled context forces 408 "client cancelled request"; otherwise
`errors.As` extracts an `apiError`, and a non-apiError becomes
500 "Internal server error" with the original error as cause. -/
def classify (ctx : Ctx) (err : GoError) : apiError :=
  let err := if ctx.ctxErr = GoError.nilError then err
             else GoError.apiErr 408 "client cancelled request" ctx.ctxErr
  match asApiError err with
  | some a => a
  | none => ⟨500, "Internal server error", err⟩

/-- `http.ResponseWriter` state, with the documented net/http semantics:
`pending` is the mutable `Header()` map; the first `WriteHeader` records the
status and snapshots the headers actually sent; later `WriteHeader` calls
and header mutations have no effect on the wire. -/
structure ResponseWriter where
  pending : List (String × String)
  status : Option Nat
  sentHeaders : List (String × String)
  body : String
deriving DecidableEq

def ResponseWriter.init : ResponseWriter := ⟨[], none, [], ""⟩

/-- `w.Header().Set(k, v)`. -/
def headerSet (k v : String) (w : ResponseWriter) : ResponseWriter :=
  { w with pending := (k, v) :: w.pending.filter (fun p => p.fst ≠ k) }

/-- `w.WriteHeader(code)`: a second call is superfluous and ignored;
the first call freezes the headers that are sent. -/
def writeHeader (code : Nat) (w : ResponseWriter) : ResponseWriter :=
  if w.status.isSome then w
  else { w with status := some code, sentHeaders := w.pending }

/-- `w.Write(b)`: an implicit `WriteHeader(200)` if none was sent yet,
then the bytes are appended to the body. -/
def write (b : String) (w : ResponseWriter) : ResponseWriter :=
  let w := writeHeader 200 w
  { w with body := w.body ++ b }

/-- JSON quoting of the message strings this service emits (none of which
contain characters that need escaping). -/
def jsonQuote (s : String) : String := "\"" ++ s ++ "\""

/-- `json.Marshal` of the `errorResponse` wire struct
(fields `code` and `message` only; the cause is never serialized). -/
def marshalErrorResponse (code : Nat) (msg : String) : String :=
  "\x7b\"code\":" ++ (toString code ++ (",\"message\":" ++ (jsonQuote msg ++ "\x7d")))

/-- `writeError` (router.go): classify, marshal the `errorResponse`, write
the status header, set Content-Type, write the body. Logging and the error
metric are side effects outside the embedding. -/
def writeError (ctx : Ctx) (err : GoError) (w : ResponseWriter) : ResponseWriter :=
  let a := classify ctx err
  let b := marshalErrorResponse a.StatusCode a.Message
  let w := writeHeader a.StatusCode w
  let w := headerSet "Content-Type" "application/json" w
  write b w

/-- `writeResponse` (router.go): writes 200, returns early on a nil
response, otherwise marshals (`response` carries the `json.Marshal` outcome
of the external encoder), delegating a marshal failure to `writeError`,
else sets Content-Type and writes the body. -/
def writeResponse (ctx : Ctx) (response : Option (Except GoError String)) (w : ResponseWriter) : ResponseWriter :=
  let w := writeHeader 200 w
  match response with
  | none => w
  | some (.error e) => writeError ctx (GoError.wrapped "marshal response body" e) w
  | some (.ok b) => write b (headerSet "Content-Type" "application/json" w)

/-- Character-list helper: the first list is a prefix of the second. -/
def leadsWith : List Char → List Char → Bool
  | [], _ => true
  | _ :: _, [] => false
  | p :: ps, c :: cs => p = c && leadsWith ps cs

/-- Character-list helper: the first list occurs inside the second. -/
def occursIn (pat : List Char) : List Char → Bool
  | [] => pat.isEmpty
  | c :: cs => leadsWith pat (c :: cs) || occursIn pat cs

/-- `strings.Contains(s, pat)`. -/
def strContains (s pat : String) : Bool := occursIn pat.data s.data

/-- `strings.TrimPrefix(s, "0x")`: strips a leading "0x" when present. -/
def trimHexMarker (s : String) : String :=
  match s.data with
  | '0' :: 'x' :: rest => ⟨rest⟩
  | _ => s

def isHexDigit (c : Char) : Bool :=
  c.isDigit || ('a' ≤ c && c ≤ 'f') || ('A' ≤ c && c ≤ 'F')

def hexDigitVal (c : Char) : Nat :=
  if c.isDigit then c.toNat - '0'.toNat
  else if 'a' ≤ c && c ≤ 'f' then c.toNat - 'a'.toNat + 10
  else c.toNat - 'A'.toNat + 10

/-- `hex.DecodeString` on a character list: fails on odd length or a
non-hex character, otherwise produces one byte per digit pair. -/
def hexDecodeChars : List Char → Option (List Nat)
  | [] => some []
  | [_] => none
  | a :: b :: rest =>
    if isHexDigit a && isHexDigit b then
      (hexDecodeChars rest).map (fun t => (16 * hexDigitVal a + hexDigitVal b) :: t)
    else none

/-- `hex.DecodeString`. -/
def hexDecodeString (s : String) : Option (List Nat) := hexDecodeChars s.data

/-- `url.Values`: the parsed query string. -/
abbrev Query := List (String × List String)

/-- `query[name]`: the map lookup, `none` when the key is absent. -/
def queryLookup (query : Query) (name : String) : Option (List String) :=
  (query.find? (fun p => p.fst == name)).map Prod.snd

/-- Message of `hexQueryFixed` for a missing parameter. -/
def msgMissing (name : String) : String :=
  "missing 0x-hex query parameter " ++ name

/-- Message of `hexQueryFixed` for a decoded length mismatch. -/
def msgBadLength (name : String) (n : Nat) : String :=
  "invalid length for 0x-hex query parameter " ++ (name ++ (", expect " ++ (toString n ++ " bytes")))

/-- Message of `hexQuery` for invalid hex. -/
def msgBadHex (name value : String) : String :=
  "invalid 0x-hex query parameter " ++ (name ++ (" [" ++ (value ++ "]")))

/-- `hexQuery` (router.go): `.ok none` models `(nil, false, nil)` when the
parameter is absent or not exactly single-valued; a decode failure is a 400
apiError naming the parameter and the raw value. -/
def hexQuery (query : Query) (name : String) : Except GoError (Option (List Nat)) :=
  match queryLookup query name with
  | some [value] =>
    match hexDecodeString (trimHexMarker value) with
    | none => .error (.apiErr 400 (msgBadHex name value) (.simple "encoding/hex: decode error"))
    | some resp => .ok (some resp)
  | _ => .ok none

/-- `hexQueryFixed` (router.go): propagates a decode error, rejects a
missing parameter and a decoded-length mismatch against the target length,
otherwise yields the bytes (the source copies them into `target`). -/
def hexQueryFixed (query : Query) (name : String) (targetLen : Nat) : Except GoError (List Nat) :=
  match hexQuery query name with
  | .error e => .error e
  | .ok none => .error (.apiErr 400 (msgMissing name) .nilError)
  | .ok (some resp) =>
    if resp.length ≠ targetLen then
      .error (.apiErr 400 (msgBadLength name targetLen) .nilError)
    else .ok resp

/-- `unmarshal` (router.go): rejects an empty body as 400 "empty request
body", a decode failure as 400 "failed parsing request body"; `dec` is the
external `json.Unmarshal` outcome for the target type. -/
def unmarshal {α : Type} (dec : List Nat → Except GoError α) (body : List Nat) : Except GoError α :=
  if body.length = 0 then
    .error (.apiErr 400 "empty request body" (.simple "empty request body"))
  else
    match dec body with
    | .error e => .error (.apiErr 400 "failed parsing request body" e)
    | .ok v => .ok v

/-- `cluster.Definition`, opaque except for the outcomes of its two
validation predicates (`nilError` when the predicate passes) and an opaque
payload distinguishing values. -/
structure ClusterDefinition where
  verifyHashesErr : GoError
  verifySignaturesErr : GoError
  payload : String
deriving DecidableEq

/-- `cluster.Operator`, opaque. -/
structure Operator where
  payload : String
deriving DecidableEq

/-- The `service.Definition` interface. -/
structure DefinitionService where
  get : Ctx → List Nat → Except GoError ClusterDefinition
  delete : Ctx → List Nat → Option GoError
  create : Ctx → ClusterDefinition → Option GoError
  addOperator : Ctx → List Nat → List Nat → Operator → Option GoError

/-- The external `json.Unmarshal` outcomes for the two body types the
handlers decode (`cluster.Definition`, and the operator-plus-ForkVersion
request struct of `addOperator`). -/
structure BodyCodec where
  unmarshalDefinition : List Nat → Except GoError ClusterDefinition
  unmarshalOperatorReq : List Nat → Except GoError (Operator × String)

/-- Parsed path parameters (`mux.Vars`). -/
abbrev Params := List (String × String)

/-- `handlerFunc` (router.go): context, path params, query, body to
result-or-error; `none` models a nil result. -/
abbrev HandlerFunc := Ctx → Params → Query → List Nat → Except GoError (Option ClusterDefinition)

/-- `getDefinition` (handlers.go). -/
def getDefinition (svc : DefinitionService) : HandlerFunc := fun ctx _params query _body =>
  match hexQuery query "config_hash" with
  | .error e => .error e
  | .ok none => .error (.apiErr 400 "Missing config_hash" .nilError)
  | .ok (some hash) =>
    match svc.get ctx hash with
    | .error e => .error e
    | .ok d => .ok (some d)

/-- `deleteDefinition` (handlers.go). -/
def deleteDefinition (svc : DefinitionService) : HandlerFunc := fun ctx _params query _body =>
  match hexQuery query "config_hash" with
  | .error e => .error e
  | .ok none => .error (.apiErr 400 "Missing config_hash" .nilError)
  | .ok (some hash) =>
    match svc.delete ctx hash with
    | some e => .error e
    | none => .ok none

/-- `createDefinition` (handlers.go). -/
def createDefinition (codec : BodyCodec) (svc : DefinitionService) : HandlerFunc := fun ctx _params _query body =>
  match codec.unmarshalDefinition body with
  | .error e => .error (.apiErr 400 "Invalid body" e)
  | .ok d =>
    if d.verifyHashesErr ≠ GoError.nilError then
      .error (.apiErr 400 "Invalid definition hash" d.verifyHashesErr)
    else if d.verifySignaturesErr ≠ GoError.nilError then
      .error (.apiErr 400 "Invalid definition signature" d.verifySignaturesErr)
    else
      match svc.create ctx d with
      | some e => .error e
      | none => .ok none

/-- `addOperator` (handlers.go). -/
def addOperator (codec : BodyCodec) (svc : DefinitionService) : HandlerFunc := fun ctx _params query body =>
  match hexQuery query "config_hash" with
  | .error e => .error e
  | .ok none => .error (.apiErr 400 "Missing config_hash" .nilError)
  | .ok (some hash) =>
    match codec.unmarshalOperatorReq body with
    | .error e => .error (.apiErr 400 "Invalid body" e)
    | .ok (op, forkVersionStr) =>
      match hexDecodeString (trimHexMarker forkVersionStr) with
      | none => .error (.apiErr 400 "Invalid fork version hex" (.simple "encoding/hex: decode error"))
      | some forkVersion =>
        match svc.addOperator ctx hash forkVersion op with
        | some e => .error e
        | none => .ok none

/-- An inbound request as `wrap` sees it: the Content-Type header (empty
when absent), the request context, route variables, query, and the
`io.ReadAll` outcome for the body. -/
structure Request where
  contentType : String
  ctx : Ctx
  pathParams : Params
  query : Query
  body : Except GoError (List Nat)

/-- Outcome of `wrap`: the response writer plus instrumentation recording
whether the body was read and whether the handler was invoked. -/
structure WrapOutcome where
  writer : ResponseWriter
  bodyRead : Bool
  handlerCalled : Bool
deriving DecidableEq

/-- `wrap` (router.go): rejects a non-empty non-JSON Content-Type with 415
before reading the body or invoking the handler; then reads the body,
invokes the handler, and writes the response or the classified error.
`marshalRes` is the external `json.Marshal` outcome for a handler result. -/
def wrap (marshalRes : ClusterDefinition → Except GoError String) (handler : HandlerFunc) (req : Request) : WrapOutcome :=
  let w := ResponseWriter.init
  if req.contentType ≠ "" ∧ strContains req.contentType "application/json" = false then
    ⟨writeError req.ctx (GoError.apiErr 415 ("unsupported media type " ++ (req.contentType ++ " (only application/json supported)")) GoError.nilError) w, false, false⟩
  else
    match req.body with
    | .error e => ⟨writeError req.ctx e w, true, false⟩
    | .ok body =>
      match handler req.ctx req.pathParams req.query body with
      | .error e => ⟨writeError req.ctx e w, true, true⟩
      | .ok none => ⟨writeResponse req.ctx none w, true, true⟩
      | .ok (some d) => ⟨writeResponse req.ctx (some (marshalRes d)) w, true, true⟩

/-- Modelled from the spec: `service.ErrNotFound` is referenced by
service/definition.go but defined outside the provided sources; the spec
states that a not-found outcome from the store is classified as 404, so it
is modelled as an error the classifier recognises with status 404. -/
def ErrNotFound : GoError := GoError.apiErr 404 "definition not found" GoError.nilError

/-- The outcome of `table.FindOne` followed by `Decode`, as
`definitionImpl.Get` consumes it. -/
inductive FindOneRes where
  | noDocuments
  | failed (e : GoError)
  | found (decoded : Except GoError ClusterDefinition)

/-- `definitionImpl.Get` (service/definition.go) over the find-one outcome. -/
def definitionImplGet : FindOneRes → Except GoError ClusterDefinition
  | .noDocuments => .error (.wrapped "definition not found" ErrNotFound)
  | .failed e => .error (.wrapped "failed to get definition" e)
  | .found (.error e) => .error (.wrapped "failed to decode definition" e)
  | .found (.ok d) => .ok d

/-- `definitionImpl.Delete` (service/definition.go) over the delete-one
outcome (`.ok n` is a successful call deleting `n` documents). -/
def definitionImplDelete : Except GoError Nat → Option GoError
  | .error e => some (.wrapped "failed to delete definition" e)
  | .ok 0 => some (.wrapped "definition not found" ErrNotFound)
  | .ok (_ + 1) => none

/-- `redact` (cmd package): values of flags whose name contains "address"
are parsed as URLs and replaced by the redacted form; everything else, and
any value that fails to parse, passes through unchanged. `parseURL` and
`redactedURL` are the external net/url collaborators. -/
def redact {α : Type} (parseURL : String → Option α) (redactedURL : α → String) (flag val : String) : String :=
  if strContains flag "address" = false then val
  else
    match parseURL val with
    | none => val
    | some u => redactedURL u

/-- A handler that ignores its inputs, for concrete instantiations. -/
def constHandler : HandlerFunc := fun _ _ _ _ => .ok none

/-- A second concrete handler, distinct from `constHandler`. -/
def failHandler : HandlerFunc := fun _ _ _ _ => .error (.simple "handler failed")

/-- A concrete `json.Marshal` outcome for instantiations. -/
def constMarshal : ClusterDefinition → Except GoError String := fun _ => .ok "\x7b\x7d"

/-- A service whose lookups all report the store's not-found outcome, as
`definitionImpl` produces it. -/
def notFoundSvc : DefinitionService where
  get := fun _ _ => definitionImplGet FindOneRes.noDocuments
  delete := fun _ _ => definitionImplDelete (.ok 0)
  create := fun _ _ => none
  addOperator := fun _ _ _ _ => none

/-- A service whose calls all fail, for concrete instantiations. -/
def noSvc : DefinitionService where
  get := fun _ _ => .error (.simple "store unavailable")
  delete := fun _ _ => some (.simple "store unavailable")
  create := fun _ _ => some (.simple "store unavailable")
  addOperator := fun _ _ _ _ => some (.simple "store unavailable")

/-- A codec with the stdlib behaviour on an empty body: `json.Unmarshal`
fails with "unexpected end of JSON input". -/
def emptyFailCodec : BodyCodec where
  unmarshalDefinition := fun body =>
    if body.length = 0 then .error (.simple "unexpected end of JSON input")
    else .error (.simple "unsupported")
  unmarshalOperatorReq := fun body =>
    if body.length = 0 then .error (.simple "unexpected end of JSON input")
    else .error (.simple "unsupported")

theorem stringNeOfData (s t : String) (i : Nat) (h : s.data[i]? ≠ t.data[i]?) : s ≠ t := by
  intro he
  exact h (by rw [he])

theorem getAppendLeft {α : Type} (a b : List α) (i : Nat) (h : i < a.length) :
    (a ++ b)[i]? = a[i]? := by
  induction a generalizing i with
  | nil => simp at h
  | cons x xs ih =>
    cases i with
    | zero => simp
    | succ j =>
      simp only [List.cons_append, List.getElem?_cons_succ]
      exact ih j (Nat.lt_of_succ_lt_succ h)

theorem leadsWithSelf (p : List Char) : ∀ r : List Char, leadsWith p (p ++ r) = true := by
  induction p with
  | nil => intro r; rfl
  | cons c cs ih => intro r; simp [leadsWith, ih]

theorem occursInNil : ∀ b : List Char, occursIn [] b = true := by
  intro b
  cases b with
  | nil => rfl
  | cons c cs => simp [occursIn, leadsWith]

theorem occursInAppend (a : List Char) : ∀ p b : List Char, occursIn p (a ++ (p ++ b)) = true := by
  induction a with
  | nil =>
    intro p b
    show occursIn p (p ++ b) = true
    cases p with
    | nil => exact occursInNil b
    | cons c cs =>
      show occursIn (c :: cs) ((c :: cs) ++ b) = true
      rw [show ((c :: cs) ++ b) = c :: (cs ++ b) from rfl, occursIn,
        show (c :: (cs ++ b)) = (c :: cs) ++ b from rfl, leadsWithSelf]
      rfl
  | cons x xs ih =>
    intro p b
    rw [List.cons_append, occursIn, ih p b]
    simp

theorem msgMissingNeBadLength (name : String) (n : Nat) :
    msgMissing name ≠ msgBadLength name n := by
  apply stringNeOfData _ _ 0
  rw [msgMissing, msgBadLength, String.data_append, String.data_append,
    getAppendLeft _ _ 0 (by decide), getAppendLeft _ _ 0 (by decide)]
  decide

theorem msgMissingNeBadHex (name value : String) :
    msgMissing name ≠ msgBadHex name value := by
  apply stringNeOfData _ _ 0
  rw [msgMissing, msgBadHex, String.data_append, String.data_append,
    getAppendLeft _ _ 0 (by decide), getAppendLeft _ _ 0 (by decide)]
  decide

theorem msgBadLengthNeBadHex (name value : String) (n : Nat) :
    msgBadLength name n ≠ msgBadHex name value := by
  apply stringNeOfData _ _ 8
  simp only [msgBadLength, msgBadHex, String.data_append]
  rw [getAppendLeft _ _ 8 (by decide), getAppendLeft _ _ 8 (by decide)]
  decide

theorem msgMissingContainsName (name : String) :
    strContains (msgMissing name) name = true := by
  rw [msgMissing, strContains, String.data_append]
  have := occursInAppend "missing 0x-hex query parameter ".data name.data []
  simpa using this

theorem msgBadLengthContainsName (name : String) (n : Nat) :
    strContains (msgBadLength name n) name = true := by
  rw [msgBadLength, strContains, String.data_append, String.data_append]
  exact occursInAppend _ _ _

theorem msgBadHexContainsName (name value : String) :
    strContains (msgBadHex name value) name = true := by
  rw [msgBadHex, strContains, String.data_append, String.data_append]
  exact occursInAppend _ _ _

/-- Claim C1: an error that is not an ApiError, classified while the
context is not cancelled, becomes exactly (500, "Internal server error");
the original error survives only as the internal cause, and the response
body written to the client is the constant error JSON, independent of the
original error. -/
theorem c1_opaque_internal_error (ctx : Ctx) (e : GoError)
    (hc : ctx.ctxErr = GoError.nilError) (ha : asApiError e = none) :
    classify ctx e = ⟨500, "Internal server error", e⟩ ∧
    (writeError ctx e ResponseWriter.init).status = some 500 ∧
    (writeError ctx e ResponseWriter.init).body =
      marshalErrorResponse 500 "Internal server error" := by
  have hcl : classify ctx e = ⟨500, "Internal server error", e⟩ := by
    simp [classify, hc, ha]
  refine ⟨hcl, ?_, ?_⟩ <;>
    simp [writeError, hcl, writeHeader, headerSet, write, ResponseWriter.init]

theorem c1_opaque_internal_error_witness :
    classify ⟨GoError.nilError⟩ (GoError.simple "database connection refused") =
      ⟨500, "Internal server error", GoError.simple "database connection refused"⟩ ∧
    (writeError ⟨GoError.nilError⟩ (GoError.simple "database connection refused") ResponseWriter.init).status = some 500 ∧
    (writeError ⟨GoError.nilError⟩ (GoError.simple "database connection refused") ResponseWriter.init).body =
      marshalErrorResponse 500 "Internal server error" :=
  c1_opaque_internal_error ⟨GoError.nilError⟩ (GoError.simple "database connection refused") rfl rfl

/-- Claim C2 (code bug): `writeResponse` calls `WriteHeader(200)` before
marshalling, so when the marshal fails the later `WriteHeader(500)` inside
`writeError` is superfluous and ignored: the client observes status 200
with the internal-error JSON body, not status 500. The success path has the
same slip: Content-Type is set after `WriteHeader`, so it is not among the
sent headers. -/
theorem c2_marshal_failure_sends_200 :
    (writeResponse ⟨GoError.nilError⟩ (some (.error (GoError.simple "json: unsupported type")))
      ResponseWriter.init).status = some 200 ∧
    (writeResponse ⟨GoError.nilError⟩ (some (.error (GoError.simple "json: unsupported type")))
      ResponseWriter.init).body = marshalErrorResponse 500 "Internal server error" ∧
    some (200 : Nat) ≠ some 500 ∧
    (writeResponse ⟨GoError.nilError⟩ (some (.ok "\x7b\x7d")) ResponseWriter.init).sentHeaders = [] := by
  refine ⟨rfl, rfl, by decide, rfl⟩

/-- Claim C3 (code bug): the documented defaults of `apiError` (500 when
StatusCode is zero, "Internal server error" when Message is empty) are not
applied anywhere: `writeError` uses the fields verbatim, so an unset
ApiError reaches the client as code 0 with an empty message. -/
theorem c3_defaults_not_applied :
    classify ⟨GoError.nilError⟩ (GoError.apiErr 0 "" GoError.nilError) = ⟨0, "", GoError.nilError⟩ ∧
    (writeError ⟨GoError.nilError⟩ (GoError.apiErr 0 "" GoError.nilError) ResponseWriter.init).status = some 0 ∧
    (writeError ⟨GoError.nilError⟩ (GoError.apiErr 0 "" GoError.nilError) ResponseWriter.init).body =
      marshalErrorResponse 0 "" ∧
    (0 : Nat) ≠ 500 ∧ "" ≠ "Internal server error" := by
  refine ⟨rfl, rfl, rfl, by decide, by decide⟩

/-- Claim C4 counterexample: a request with Content-Type "text/plain" whose
context is already cancelled is answered with status 408, not 415 — the
cancellation override in `writeError` takes priority. -/
theorem c4_cancelled_context_overrides_415 :
    (wrap constMarshal constHandler
      ⟨"text/plain", ⟨GoError.simple "context canceled"⟩, [], [], .ok []⟩).writer.status = some 408 ∧
    some (408 : Nat) ≠ some 415 := by
  refine ⟨rfl, by decide⟩

/-- Claim C4 (amended): a non-empty non-JSON Content-Type is rejected
before the body is read and before the handler is invoked, the outcome is
the same for every handler, and — provided the request's context is not
cancelled — the response is status 415 with the descriptive message. -/
theorem c4_content_type_rejection (mr : ClusterDefinition → Except GoError String)
    (handler handler2 : HandlerFunc) (req : Request)
    (hne : req.contentType ≠ "") (hct : strContains req.contentType "application/json" = false) :
    (wrap mr handler req).bodyRead = false ∧
    (wrap mr handler req).handlerCalled = false ∧
    wrap mr handler req = wrap mr handler2 req ∧
    (req.ctx.ctxErr = GoError.nilError →
      (wrap mr handler req).writer.status = some 415 ∧
      (wrap mr handler req).writer.body =
        marshalErrorResponse 415
          ("unsupported media type " ++ (req.contentType ++ " (only application/json supported)"))) := by
  have hcond : req.contentType ≠ "" ∧ strContains req.contentType "application/json" = false :=
    ⟨hne, hct⟩
  refine ⟨?_, ?_, ?_, ?_⟩
  · simp [wrap, hcond]
  · simp [wrap, hcond]
  · simp [wrap, hcond]
  · intro hnil
    constructor <;>
      simp [wrap, hcond, writeError, classify, hnil, asApiError, writeHeader, headerSet, write,
        ResponseWriter.init]

theorem c4_content_type_rejection_witness :
    (wrap constMarshal constHandler ⟨"text/plain", ⟨GoError.nilError⟩, [], [], .ok []⟩).bodyRead = false ∧
    (wrap constMarshal constHandler ⟨"text/plain", ⟨GoError.nilError⟩, [], [], .ok []⟩).handlerCalled = false ∧
    wrap constMarshal constHandler ⟨"text/plain", ⟨GoError.nilError⟩, [], [], .ok []⟩ =
      wrap constMarshal failHandler ⟨"text/plain", ⟨GoError.nilError⟩, [], [], .ok []⟩ ∧
    ((⟨"text/plain", ⟨GoError.nilError⟩, [], [], .ok []⟩ : Request).ctx.ctxErr = GoError.nilError →
      (wrap constMarshal constHandler ⟨"text/plain", ⟨GoError.nilError⟩, [], [], .ok []⟩).writer.status = some 415 ∧
      (wrap constMarshal constHandler ⟨"text/plain", ⟨GoError.nilError⟩, [], [], .ok []⟩).writer.body =
        marshalErrorResponse 415
          ("unsupported media type " ++ ("text/plain" ++ " (only application/json supported)"))) :=
  c4_content_type_rejection constMarshal constHandler failHandler
    ⟨"text/plain", ⟨GoError.nilError⟩, [], [], .ok []⟩ (by decide) (by decide)

/-- Claim C5: any error classified while the request's context is already
cancelled becomes status 408 with message "client cancelled request",
whatever the original error — including an ApiError with another status. -/
theorem c5_cancelled_forces_408 (ctx : Ctx) (e : GoError) (hc : ctx.ctxErr ≠ GoError.nilError) :
    classify ctx e = ⟨408, "client cancelled request", ctx.ctxErr⟩ := by
  simp [classify, hc, asApiError]

theorem c5_cancelled_forces_408_witness :
    classify ⟨GoError.simple "context canceled"⟩ (GoError.apiErr 400 "Missing config_hash" GoError.nilError) =
      ⟨408, "client cancelled request", GoError.simple "context canceled"⟩ :=
  c5_cancelled_forces_408 ⟨GoError.simple "context canceled"⟩
    (GoError.apiErr 400 "Missing config_hash" GoError.nilError) (by decide)

/-- Claim C6 counterexample: with the store reporting not-found but the
request's context already cancelled, the client receives 408, not 404 —
the cancellation override in `writeError` takes priority. -/
theorem c6_cancelled_context_overrides_404 :
    (wrap constMarshal (getDefinition notFoundSvc)
      ⟨"", ⟨GoError.simple "context canceled"⟩, [], [("config_hash", ["0x12"])], .ok []⟩).writer.status = some 408 ∧
    some (408 : Nat) ≠ some 404 := by
  refine ⟨by decide, by decide⟩

/-- Claim C6 (amended): when `config_hash` is absent, `getDefinition` and
`deleteDefinition` return the 400 "Missing config_hash" ApiError — a value
independent of the store, which is therefore never consulted; and when the
store reports its not-found outcome (as `definitionImpl` produces it) and
the request's context is not cancelled, the client receives status 404. -/
theorem c6_missing_hash_and_notfound (svc : DefinitionService) (ctx : Ctx) (p : Params)
    (q : Query) (b : List Nat) (hash : List Nat)
    (mr : ClusterDefinition → Except GoError String) (req : Request)
    (hmiss : hexQuery q "config_hash" = .ok none)
    (hctx : req.ctx.ctxErr = GoError.nilError)
    (hct : req.contentType = "")
    (hbody : req.body = .ok b)
    (hq2 : hexQuery req.query "config_hash" = .ok (some hash))
    (hget : svc.get req.ctx hash = definitionImplGet FindOneRes.noDocuments)
    (hdel : svc.delete req.ctx hash = definitionImplDelete (.ok 0)) :
    getDefinition svc ctx p q b = .error (.apiErr 400 "Missing config_hash" .nilError) ∧
    deleteDefinition svc ctx p q b = .error (.apiErr 400 "Missing config_hash" .nilError) ∧
    (wrap mr (getDefinition svc) req).writer.status = some 404 ∧
    (wrap mr (deleteDefinition svc) req).writer.status = some 404 := by
  refine ⟨?_, ?_, ?_, ?_⟩
  · simp [getDefinition, hmiss]
  · simp [deleteDefinition, hmiss]
  · simp [wrap, hct, hbody, getDefinition, hq2, hget, definitionImplGet, writeError, classify,
      hctx, asApiError, ErrNotFound, writeHeader, headerSet, write, ResponseWriter.init]
  · simp [wrap, hct, hbody, deleteDefinition, hq2, hdel, definitionImplDelete, writeError,
      classify, hctx, asApiError, ErrNotFound, writeHeader, headerSet, write, ResponseWriter.init]

theorem c6_missing_hash_and_notfound_witness :
    getDefinition notFoundSvc ⟨GoError.nilError⟩ [] [] [] =
      .error (.apiErr 400 "Missing config_hash" .nilError) ∧
    deleteDefinition notFoundSvc ⟨GoError.nilError⟩ [] [] [] =
      .error (.apiErr 400 "Missing config_hash" .nilError) ∧
    (wrap constMarshal (getDefinition notFoundSvc)
      ⟨"", ⟨GoError.nilError⟩, [], [("config_hash", ["0x12"])], .ok []⟩).writer.status = some 404 ∧
    (wrap constMarshal (deleteDefinition notFoundSvc)
      ⟨"", ⟨GoError.nilError⟩, [], [("config_hash", ["0x12"])], .ok []⟩).writer.status = some 404 :=
  c6_missing_hash_and_notfound notFoundSvc ⟨GoError.nilError⟩ [] [] [] [18] constMarshal
    ⟨"", ⟨GoError.nilError⟩, [], [("config_hash", ["0x12"])], .ok []⟩
    rfl rfl rfl rfl (by decide) rfl rfl

/-- Claim C7: a hex query parameter must be present exactly once or it is
reported missing; `hexQueryFixed` rejects a missing parameter, a decoded
length differing from the expected byte count, and invalid hex, each as a
400 ApiError, with three pairwise distinct messages each naming the
parameter. -/
theorem c7_hex_query_helpers (q1 q2 q3 q4 q5 : Query) (name value : String) (n : Nat)
    (vs : List String) (bytes : List Nat)
    (h1 : queryLookup q1 name = none)
    (h2 : queryLookup q2 name = some vs) (h2len : vs.length ≠ 1)
    (h3 : hexQuery q3 name = .ok none)
    (h4 : hexQuery q4 name = .ok (some bytes)) (h4len : bytes.length ≠ n)
    (h5 : queryLookup q5 name = some [value])
    (h5hex : hexDecodeString (trimHexMarker value) = none) :
    hexQuery q1 name = .ok none ∧
    hexQuery q2 name = .ok none ∧
    hexQueryFixed q3 name n = .error (.apiErr 400 (msgMissing name) .nilError) ∧
    hexQueryFixed q4 name n = .error (.apiErr 400 (msgBadLength name n) .nilError) ∧
    (hexQuery q5 name = .error (.apiErr 400 (msgBadHex name value) (.simple "encoding/hex: decode error")) ∧
     hexQueryFixed q5 name n = .error (.apiErr 400 (msgBadHex name value) (.simple "encoding/hex: decode error"))) ∧
    (msgMissing name ≠ msgBadLength name n ∧
     msgMissing name ≠ msgBadHex name value ∧
     msgBadLength name n ≠ msgBadHex name value) ∧
    (strContains (msgMissing name) name = true ∧
     strContains (msgBadLength name n) name = true ∧
     strContains (msgBadHex name value) name = true) := by
  refine ⟨?_, ?_, ?_, ?_, ?_, ⟨msgMissingNeBadLength name n, msgMissingNeBadHex name value,
    msgBadLengthNeBadHex name value n⟩, msgMissingContainsName name,
    msgBadLengthContainsName name n, msgBadHexContainsName name value⟩
  · simp [hexQuery, h1]
  · rcases vs with _ | ⟨x, _ | ⟨y, ys⟩⟩
    · simp [hexQuery, h2]
    · exact absurd rfl h2len
    · simp [hexQuery, h2]
  · simp [hexQueryFixed, h3]
  · simp [hexQueryFixed, h4, h4len]
  · constructor <;> simp [hexQueryFixed, hexQuery, h5, h5hex]

theorem c7_hex_query_helpers_witness :
    hexQuery [] "config_hash" = .ok none ∧
    hexQuery [("config_hash", ["a", "b"])] "config_hash" = .ok none ∧
    hexQueryFixed [] "config_hash" 1 = .error (.apiErr 400 (msgMissing "config_hash") .nilError) ∧
    hexQueryFixed [("config_hash", ["0x1234"])] "config_hash" 1 =
      .error (.apiErr 400 (msgBadLength "config_hash" 1) .nilError) ∧
    (hexQuery [("config_hash", ["0xzz"])] "config_hash" =
      .error (.apiErr 400 (msgBadHex "config_hash" "0xzz") (.simple "encoding/hex: decode error")) ∧
     hexQueryFixed [("config_hash", ["0xzz"])] "config_hash" 1 =
      .error (.apiErr 400 (msgBadHex "config_hash" "0xzz") (.simple "encoding/hex: decode error"))) ∧
    (msgMissing "config_hash" ≠ msgBadLength "config_hash" 1 ∧
     msgMissing "config_hash" ≠ msgBadHex "config_hash" "0xzz" ∧
     msgBadLength "config_hash" 1 ≠ msgBadHex "config_hash" "0xzz") ∧
    (strContains (msgMissing "config_hash") "config_hash" = true ∧
     strContains (msgBadLength "config_hash" 1) "config_hash" = true ∧
     strContains (msgBadHex "config_hash" "0xzz") "config_hash" = true) :=
  c7_hex_query_helpers [] [("config_hash", ["a", "b"])] [] [("config_hash", ["0x1234"])]
    [("config_hash", ["0xzz"])] "config_hash" "0xzz" 1 ["a", "b"] [18, 52]
    rfl rfl (by decide) rfl (by decide) (by decide) rfl (by decide)

/-- Claim C8: the redactor returns its input unchanged whenever the flag
name does not contain "address", and also when the name does contain
"address" but the value fails to parse as a URL. -/
theorem c8_redact_passthrough {α : Type} (parseURL : String → Option α)
    (redactedURL : α → String) (flagA flagB val : String)
    (hA : strContains flagA "address" = false)
    (hB : strContains flagB "address" = true) (hparse : parseURL val = none) :
    redact parseURL redactedURL flagA val = val ∧
    redact parseURL redactedURL flagB val = val := by
  constructor
  · simp [redact, hA]
  · simp [redact, hB, hparse]

theorem c8_redact_passthrough_witness :
    redact (fun _ => (none : Option Unit)) (fun _ => "") "log-level" "mongodb://user:pw@host" =
      "mongodb://user:pw@host" ∧
    redact (fun _ => (none : Option Unit)) (fun _ => "") "http-address" "mongodb://user:pw@host" =
      "mongodb://user:pw@host" :=
  c8_redact_passthrough (fun _ => (none : Option Unit)) (fun _ => "") "log-level" "http-address"
    "mongodb://user:pw@host" (by decide) (by decide) rfl

/-- Claim C9: all four record handlers ignore the parsed path parameters:
two invocations differing only in the path-parameter mapping return
identical results — the config hash is taken from the query string only. -/
theorem c9_path_params_ignored (codec : BodyCodec) (svc : DefinitionService) (ctx : Ctx)
    (p1 p2 : Params) (q : Query) (b : List Nat) :
    getDefinition svc ctx p1 q b = getDefinition svc ctx p2 q b ∧
    deleteDefinition svc ctx p1 q b = deleteDefinition svc ctx p2 q b ∧
    createDefinition codec svc ctx p1 q b = createDefinition codec svc ctx p2 q b ∧
    addOperator codec svc ctx p1 q b = addOperator codec svc ctx p2 q b :=
  ⟨rfl, rfl, rfl, rfl⟩

/-- Claim C10 counterexample: `addOperator` with an empty body but no
`config_hash` query parameter returns 400 "Missing config_hash", not
"Invalid body" — the key check precedes body decoding. -/
theorem c10_addoperator_missing_hash_first :
    addOperator emptyFailCodec noSvc ⟨GoError.nilError⟩ [] [] [] =
      .error (.apiErr 400 "Missing config_hash" GoError.nilError) ∧
    "Missing config_hash" ≠ "Invalid body" := by
  refine ⟨rfl, by decide⟩

/-- Claim C10 (amended): with an empty body, `createDefinition` — and
`addOperator`, provided its `config_hash` query parameter is present and
valid — returns 400 "Invalid body" (from the external `json.Unmarshal`
failing on empty input), while the `unmarshal` helper, which the record
handlers never use, would produce the distinct 400 "empty request body". -/
theorem c10_empty_body_invalid_body {α : Type} (codec : BodyCodec) (svc : DefinitionService)
    (ctx : Ctx) (p : Params) (q : Query) (hash : List Nat) (e e2 : GoError)
    (dec : List Nat → Except GoError α)
    (hdef : codec.unmarshalDefinition [] = .error e)
    (hq : hexQuery q "config_hash" = .ok (some hash))
    (hop : codec.unmarshalOperatorReq [] = .error e2) :
    createDefinition codec svc ctx p q [] = .error (.apiErr 400 "Invalid body" e) ∧
    addOperator codec svc ctx p q [] = .error (.apiErr 400 "Invalid body" e2) ∧
    unmarshal dec [] = .error (.apiErr 400 "empty request body" (.simple "empty request body")) ∧
    "Invalid body" ≠ "empty request body" := by
  refine ⟨?_, ?_, rfl, by decide⟩
  · simp [createDefinition, hdef]
  · simp [addOperator, hq, hop]

theorem c10_empty_body_invalid_body_witness :
    createDefinition emptyFailCodec noSvc ⟨GoError.nilError⟩ [] [("config_hash", ["0x12"])] [] =
      .error (.apiErr 400 "Invalid body" (.simple "unexpected end of JSON input")) ∧
    addOperator emptyFailCodec noSvc ⟨GoError.nilError⟩ [] [("config_hash", ["0x12"])] [] =
      .error (.apiErr 400 "Invalid body" (.simple "unexpected end of JSON input")) ∧
    unmarshal (fun _ => (.ok 0 : Except GoError Nat)) [] =
      .error (.apiErr 400 "empty request body" (.simple "empty request body")) ∧
    "Invalid body" ≠ "empty request body" :=
  c10_empty_body_invalid_body emptyFailCodec noSvc ⟨GoError.nilError⟩ []
    [("config_hash", ["0x12"])] [18] (.simple "unexpected end of JSON input")
    (.simple "unexpected end of JSON input") (fun _ => (.ok 0 : Except GoError Nat))
    rfl (by decide) rfl

end DVStore
